import Mathlib

/-!
Shallow embedding of the session lifecycle engine of the
`devin-github-issues-dashboard` repository:
the tRPC `devinRouter` procedures (`analyzeIssue`, `getSessionStatus`,
`resolveIssue`, `pollSession`, `getAllSessions`), the `DevinClient`
validators and polling helper (`src/lib/devin.ts`), and the status
helpers (`isDevinSessionRunning` / `isDevinSessionComplete` from
`src/lib/utils`).

Conventions of the embedding:
- JavaScript values reachable from `structured_output` are modelled by
  the JSON value type `JsValue` (numbers as rationals, which covers
  every JSON numeral the validators can see).
- The Prisma `devinSession` table is a list of `DbSession` rows; the
  `status` column is a plain string, as in the schema.
- Remote HTTP calls are oracle parameters: a create call is an
  `Except RemoteError String`, a poll stream is a function from the
  attempt index to the remote response.  Each engine operation returns
  the new table next to its `Except` outcome, so "throws" and "leaves
  the store unchanged" are both directly expressible.
- The `messages` column stores `JSON.stringify` of the remote message
  list; the engine only ever writes it (deterministically in the value)
  and never reads it back, so the column is modelled by the JSON value
  itself rather than its rendered text.
-/

/-- The nine-value native status vocabulary of the remote agent API
(`DevinStatusEnum` in `src/lib/types/index.ts`). -/
inductive DevinStatusEnum
  | working
  | blocked
  | expired
  | finished
  | suspend_requested
  | suspend_requested_frontend
  | resume_requested
  | resume_requested_frontend
  | resumed
deriving DecidableEq, Repr

/-- The string spelling of each native status, as stored in the
`status` column of the `devinSession` table. -/
def DevinStatusEnum.toStr : DevinStatusEnum → String
  | .working => "working"
  | .blocked => "blocked"
  | .expired => "expired"
  | .finished => "finished"
  | .suspend_requested => "suspend_requested"
  | .suspend_requested_frontend => "suspend_requested_frontend"
  | .resume_requested => "resume_requested"
  | .resume_requested_frontend => "resume_requested_frontend"
  | .resumed => "resumed"

/-- All nine native statuses. -/
def allStatuses : List DevinStatusEnum :=
  [.working, .blocked, .expired, .finished, .suspend_requested,
   .suspend_requested_frontend, .resume_requested,
   .resume_requested_frontend, .resumed]

/-- The four canonical states of the specification. -/
inductive CanonicalStatus
  | RUNNING
  | BLOCKED
  | FINISHED
  | EXPIRED
deriving DecidableEq, Repr

/-- JSON-like JavaScript values, as seen by the result validators. -/
inductive JsValue
  | nul
  | bool (b : Bool)
  | num (q : ℚ)
  | str (s : String)
  | arr (elems : List JsValue)
  | obj (fields : List (String × JsValue))

/-- JavaScript truthiness of a JSON value (`!result`, `devinSession.structured_output`
and `devinSession.messages` are truthiness tests in the source). -/
def JsValue.truthy : JsValue → Bool
  | .nul => false
  | .bool b => b
  | .num q => q != 0
  | .str s => s != ""
  | .arr _ => true
  | .obj _ => true

/-- Whether `typeof v === "object"` holds for a non-null JSON value
(objects and arrays; `null` is excluded separately by the truthiness
guard in the validators). -/
def JsValue.isObjectLike : JsValue → Bool
  | .arr _ => true
  | .obj _ => true
  | _ => false

/-- JavaScript property read `v[key]` on a JSON value: named fields
exist only on objects (a JSON array carries no named properties), and
an absent field reads as `undefined`, modelled `none`. -/
def JsValue.get : JsValue → String → Option JsValue
  | .obj fields, key => (fields.find? (fun p => p.1 == key)).map Prod.snd
  | _, _ => none

/-- The six issue categories accepted by the analysis validator. -/
def analysisTypes : List String :=
  ["bug", "feature", "documentation", "enhancement", "maintenance", "question"]

/-- The three complexity levels accepted by the analysis validator. -/
def complexityLevels : List String := ["low", "medium", "high"]

/-- `DevinClient.isValidAnalysisResult` (`src/lib/devin.ts`): the
structural validator the engine runs against terminal structured
output.  Mirrors the source clause for clause: truthy object, `type`
in the six categories, `complexity` in the three levels,
`confidence_score` a number between 0 and 100, and three string
fields. -/
def isValidAnalysisResult (result : JsValue) : Bool :=
  if !result.truthy || !result.isObjectLike then false
  else
    (match result.get "type" with
     | some (.str s) => analysisTypes.contains s
     | _ => false) &&
    (match result.get "complexity" with
     | some (.str s) => complexityLevels.contains s
     | _ => false) &&
    (match result.get "confidence_score" with
     | some (.num q) => decide (0 ≤ q) && decide (q ≤ 100)
     | _ => false) &&
    (match result.get "strategy" with
     | some (.str _) => true
     | _ => false) &&
    (match result.get "scope_analysis" with
     | some (.str _) => true
     | _ => false) &&
    (match result.get "reasoning" with
     | some (.str _) => true
     | _ => false)

/-- `DevinClient.isValidResolutionResult` (`src/lib/devin.ts`):
truthy object with a string `summary` and an absent-or-string
`pull_request_url`. -/
def isValidResolutionResult (result : JsValue) : Bool :=
  if !result.truthy || !result.isObjectLike then false
  else
    (match result.get "summary" with
     | some (.str _) => true
     | _ => false) &&
    (match result.get "pull_request_url" with
     | none => true
     | some (.str _) => true
     | _ => false)

/-- The six native statuses classified as running by
`isDevinSessionRunning` (`src/lib/utils`). -/
def runningStatuses : List DevinStatusEnum :=
  [.working, .resumed, .suspend_requested, .suspend_requested_frontend,
   .resume_requested, .resume_requested_frontend]

/-- The three native statuses classified as complete by
`isDevinSessionComplete` (`src/lib/utils`). -/
def completeStatuses : List DevinStatusEnum :=
  [.finished, .expired, .blocked]

/-- `isDevinSessionRunning` from `src/lib/utils`: `false` on a missing
status, membership in the six running sub-states otherwise. -/
def isDevinSessionRunning : Option DevinStatusEnum → Bool
  | none => false
  | some st => runningStatuses.contains st

/-- `isDevinSessionComplete` from `src/lib/utils`: `false` on a missing
status, membership in the three terminal states otherwise. -/
def isDevinSessionComplete : Option DevinStatusEnum → Bool
  | none => false
  | some st => completeStatuses.contains st

/-- The canonical pass-through of the three terminal native statuses
(`blocked`/`finished`/`expired` keep their names across the
normalization; no other native status is terminal). -/
def terminalCanonical : DevinStatusEnum → Option CanonicalStatus
  | .blocked => some .BLOCKED
  | .finished => some .FINISHED
  | .expired => some .EXPIRED
  | _ => none

/-- The canonical state a native status denotes: terminal statuses pass
through under their own names, every other status is running.  This is
the four-state reading induced by the code's status helpers
(`isDevinSessionRunning` / `isDevinSessionComplete`) together with the
engine's verbatim pass-through of `status_enum` into the store. -/
def getStatusCanonical (s : DevinStatusEnum) : CanonicalStatus :=
  (terminalCanonical s).getD .RUNNING

/-- The two session kinds (`SessionType` in `src/lib/types/index.ts`,
the `type` column of the `devinSession` table). -/
inductive SessionType
  | analysis
  | resolution
deriving DecidableEq, Repr

/-- One row of the `devinSession` table.  `status` is a plain string
column (the engine writes `"working"`, native `status_enum` spellings,
and the router's `"finished"`/`"expired"`/`"failed"`); `messages`
stores the JSON text of the remote message log, modelled by the JSON
value itself; timestamps are abstract ticks. -/
structure DbSession where
  sessionId : String
  issueId : String
  type : SessionType
  status : String
  result : Option JsValue
  messages : JsValue
  confidenceScore : Option ℚ
  createdAt : Nat
  updatedAt : Nat

/-- `db.devinSession.findUnique({ where: { sessionId } })`. -/
def findSession (db : List DbSession) (sessionId : String) : Option DbSession :=
  db.find? (fun s => s.sessionId == sessionId)

/-- `db.devinSession.findFirst({ where: { issueId, type, status: "working" } })`
— the duplicate-suppression query of `analyzeIssue` / `resolveIssue`.
Note that it matches on the literal status string `"working"` only. -/
def findFirstRunning (db : List DbSession) (issueId : String)
    (ty : SessionType) : Option DbSession :=
  db.find? (fun s =>
    s.issueId == issueId && s.type == ty && s.status == "working")

/-- `db.devinSession.update({ where: { sessionId }, data: ... })`:
rewrite the row with the matching id, leave every other row alone. -/
def updateSession (db : List DbSession) (sessionId : String)
    (f : DbSession → DbSession) : List DbSession :=
  db.map (fun s => if s.sessionId == sessionId then f s else s)

/-- `db.devinSession.upsert`: bump `updatedAt` when the id already
exists, append the new row otherwise. -/
def upsertSession (db : List DbSession) (row : DbSession) (now : Nat) :
    List DbSession :=
  if db.any (fun s => s.sessionId == row.sessionId) then
    updateSession db row.sessionId (fun s => { s with updatedAt := now })
  else
    db ++ [row]

/-- Failure of a remote HTTP call (network / auth / rate limit — the
engine never inspects which). -/
inductive RemoteError
  | network
  | auth
  | rateLimited
deriving DecidableEq, Repr

/-- The errors the router procedures surface (each `catch` block in
`devinRouter` rethrows one fixed message; the zod input schema rejects
bad input before the handler runs). -/
inductive EngineError
  | invalidInput
  | failedToStartAnalysis
  | failedToGetSessionStatus
  | failedToStartResolution
  | sessionPollingFailed
deriving DecidableEq, Repr

/-- The remote agent's session payload (`DevinSessionResponse`):
`status_enum` may be absent, `structured_output` and `messages` are
optional JSON values. -/
structure DevinSessionResponse where
  session_id : String
  status : String
  status_enum : Option DevinStatusEnum
  structured_output : Option JsValue
  messages : Option JsValue
  error_message : Option String

/-- What `analyzeIssue` / `resolveIssue` return to the caller. -/
structure StartResult where
  sessionId : String
  alreadyRunning : Bool
deriving DecidableEq, Repr

/-- Outcome of a start operation: the table afterwards, the response
or error, and (instrumentation) whether the remote create call was
issued on this code path. -/
structure StartOutcome where
  db : List DbSession
  response : Except EngineError StartResult
  remoteCreateCalled : Bool

/-- `devinRouter.analyzeIssue`.  The GitHub fetch and the issue lookup
are modelled as already resolved to `issueId`; `remoteCreate` is the
oracle for `devinClient.analyzeIssue` (which performs the remote
create).  Mirrors the handler: duplicate check on
`(issueId, analysis, "working")`, then remote create, then upsert of a
fresh `"working"` row with empty message log; any thrown error becomes
the fixed `"Failed to start analysis"` failure with no write. -/
def analyzeIssue (db : List DbSession) (issueId : String)
    (remoteCreate : Except RemoteError String) (now : Nat) : StartOutcome :=
  match findFirstRunning db issueId .analysis with
  | some existing => ⟨db, .ok ⟨existing.sessionId, true⟩, false⟩
  | none =>
    match remoteCreate with
    | .error _ => ⟨db, .error .failedToStartAnalysis, true⟩
    | .ok sessionId =>
      ⟨upsertSession db
        ⟨sessionId, issueId, .analysis, "working", none, .arr [], none, now, now⟩ now,
       .ok ⟨sessionId, false⟩, true⟩

/-- Reading `structuredResult.confidence_score` after analysis
validation succeeded. -/
def analysisConfidence (v : JsValue) : Option ℚ :=
  match v.get "confidence_score" with
  | some (.num q) => some q
  | _ => none

/-- The structured-output classification block of
`devinRouter.getSessionStatus` (part_002 lines 111–122): try
`isValidAnalysisResult`, then `isValidResolutionResult`, else store the
payload raw.  The session's own `kind`/`type` is not an input: the
source block never consults it. -/
def processStructuredOutput (v : JsValue) : Option JsValue × Option ℚ :=
  if isValidAnalysisResult v then (some v, analysisConfidence v)
  else if isValidResolutionResult v then (some v, none)
  else (some v, none)

/-- The reconciled view `getSessionStatus` returns (remote fields
spread, normalized `status_enum`, computed result/confidence, cached
issue reference). -/
structure SessionStatusView where
  session_id : String
  status : String
  status_enum : DevinStatusEnum
  result : Option JsValue
  confidenceScore : Option ℚ
  issueId : String

/-- The `result` / `confidenceScore` pair `getSessionStatus` computes
from the remote response: the structured-output block runs only when
`status_enum` is present, terminal, and `structured_output` is truthy
(part_002 line 105); otherwise both stay null. -/
def remoteResultConf (remote : DevinSessionResponse) :
    Option JsValue × Option ℚ :=
  if remote.status_enum.isSome
      && isDevinSessionComplete remote.status_enum
      && (match remote.structured_output with
          | some v => v.truthy
          | none => false) then
    match remote.structured_output with
    | some v => processStructuredOutput v
    | none => (none, none)
  else (none, none)

/-- The field update `getSessionStatus` writes to the local row
(part_002 lines 130–139): `status_enum` verbatim with the `"working"`
fallback, the computed result/confidence, the stringified remote
messages when present (`undefined` skips the column), and a fresh
`updatedAt`. -/
def reconcileRow (remote : DevinSessionResponse) (now : Nat)
    (s : DbSession) : DbSession :=
  { s with
    status := (remote.status_enum.getD .working).toStr
    result := (remoteResultConf remote).1
    messages :=
      match remote.messages with
      | some m => if m.truthy then m else s.messages
      | none => s.messages
    confidenceScore := (remoteResultConf remote).2
    updatedAt := now }

/-- `devinRouter.getSessionStatus`: fetch the remote session (oracle
`remote`), look up the local row, classify terminal structured output,
write `status_enum` (defaulting to `"working"`), result, messages and
confidence back, and return the reconciled view.  A missing local row
throws, surfaced as the fixed failure with no write. -/
def getSessionStatus (db : List DbSession) (sessionId : String)
    (remote : DevinSessionResponse) (now : Nat) :
    List DbSession × Except EngineError SessionStatusView :=
  match findSession db sessionId with
  | none => (db, .error .failedToGetSessionStatus)
  | some dbSession =>
    (updateSession db sessionId (reconcileRow remote now),
     .ok ⟨remote.session_id, remote.status, remote.status_enum.getD .working,
          (remoteResultConf remote).1, (remoteResultConf remote).2,
          dbSession.issueId⟩)

/-- The `analysisResult` input of `devinRouter.resolveIssue`, as typed
by its zod schema. -/
structure AnalysisResultInput where
  type : String
  complexity : String
  confidence_score : ℚ
  strategy : String
  scope_analysis : String
  reasoning : String
deriving DecidableEq, Repr

/-- The zod input schema of `resolveIssue.analysisResult`:
`type` in the six categories, `complexity` in the three levels,
`confidence_score` between 0 and 100; the three text fields are
unconstrained strings. -/
def zodAnalysisInputValid (a : AnalysisResultInput) : Bool :=
  analysisTypes.contains a.type
  && complexityLevels.contains a.complexity
  && decide (0 ≤ a.confidence_score) && decide (a.confidence_score ≤ 100)

/-- `devinRouter.resolveIssue`: zod-validate the caller-supplied
`analysisResult`, look up the referenced session (any status), check
for a running resolution on the same issue, then create remotely and
upsert a fresh `"working"` resolution row.  The repository split and
GitHub re-fetch always succeed in the model.  Note the handler never
inspects the stored session's `status` or stored `result`. -/
def resolveIssue (db : List DbSession) (sessionId : String)
    (analysisResult : AnalysisResultInput)
    (remoteCreate : Except RemoteError String) (now : Nat) : StartOutcome :=
  if !zodAnalysisInputValid analysisResult then ⟨db, .error .invalidInput, false⟩
  else
    match findSession db sessionId with
    | none => ⟨db, .error .failedToStartResolution, false⟩
    | some analysisSession =>
      match findFirstRunning db analysisSession.issueId .resolution with
      | some existing => ⟨db, .ok ⟨existing.sessionId, true⟩, false⟩
      | none =>
        match remoteCreate with
        | .error _ => ⟨db, .error .failedToStartResolution, true⟩
        | .ok rid =>
          ⟨upsertSession db
            ⟨rid, analysisSession.issueId, .resolution, "working", none,
             .arr [], none, now, now⟩ now,
           .ok ⟨rid, false⟩, true⟩

/-- How `DevinClient.pollSession` can fail: a blocked session throws,
and exhausting `maxAttempts` throws the timeout. -/
inductive PollError
  | blocked (message : String)
  | timedOut
deriving DecidableEq, Repr

/-- The attempt loop of `DevinClient.pollSession`
(`src/lib/devin.ts` 59–78): `responses i` is what `getSession` returns
on the i-th attempt; `remaining` counts the attempts left before the
`attempts < maxAttempts` guard fails. -/
def pollSessionFrom (responses : Nat → DevinSessionResponse)
    (attempt : Nat) : Nat → Except PollError DevinSessionResponse
  | 0 => .error .timedOut
  | remaining + 1 =>
    let session := responses attempt
    if session.status_enum == some .finished
        || session.status_enum == some .expired then
      .ok session
    else if session.status_enum == some .blocked then
      .error (.blocked (session.error_message.getD "Unknown error"))
    else
      pollSessionFrom responses (attempt + 1) remaining

/-- `DevinClient.pollSession sessionId maxAttempts intervalMs`
(the interval only paces the loop and is dropped). -/
def pollSession (responses : Nat → DevinSessionResponse)
    (maxAttempts : Nat) : Except PollError DevinSessionResponse :=
  pollSessionFrom responses 0 maxAttempts

/-- `devinRouter.pollSession`: run the bounded client poll; on success
write `"finished"`/`"expired"` plus the structured output; on any
error (timeout included) the catch block marks the row `"failed"`. -/
def routerPollSession (db : List DbSession) (sessionId : String)
    (responses : Nat → DevinSessionResponse) (maxAttempts : Nat)
    (now : Nat) : List DbSession × Except EngineError DevinSessionResponse :=
  match pollSession responses maxAttempts with
  | .ok result =>
    (updateSession db sessionId (fun s =>
      { s with
        status :=
          if isDevinSessionComplete result.status_enum then "finished"
          else "expired"
        result := result.structured_output
        updatedAt := now }),
     .ok result)
  | .error _ =>
    (updateSession db sessionId (fun s =>
      { s with status := "failed", updatedAt := now }),
     .error .sessionPollingFailed)

/-- The status strings the `getAllSessions` zod filter admits. -/
def filterStatuses : List String := ["running", "completed", "failed"]

/-- `devinRouter.getAllSessions`: conjunctive optional filters on
`issueId`, `type` and `status`, newest first, truncated to `limit`. -/
def getAllSessions (db : List DbSession) (issueId : Option String)
    (ty : Option SessionType) (status : Option String) (limit : Nat) :
    List DbSession :=
  ((db.filter (fun s =>
      (match issueId with | some i => s.issueId == i | none => true)
      && (match ty with | some t => s.type == t | none => true)
      && (match status with | some st => s.status == st | none => true))).mergeSort
        (fun a b => decide (b.createdAt ≤ a.createdAt))).take limit

/-- Parse a `status` column string back into the native vocabulary
(the engine writes `DevinStatusEnum.toStr` spellings and `"working"`;
the router's poll endpoint may also write strings outside it). -/
def statusOfString (s : String) : Option DevinStatusEnum :=
  allStatuses.find? (fun e => e.toStr == s)

/-- Whether a stored row currently sits in a running sub-state, in the
sense of `isDevinSessionRunning` applied to its status column. -/
def rowRunning (row : DbSession) : Bool :=
  isDevinSessionRunning (statusOfString row.status)

/-- Number of analysis rows for `issueId` whose status is a running
sub-state — the quantity Invariant I1 bounds by one. -/
def runningAnalysisCount (db : List DbSession) (issueId : String) : Nat :=
  db.countP (fun s => s.issueId == issueId && s.type == .analysis && rowRunning s)

/-! Concrete sample data used by witnesses and counterexamples. -/

/-- An analysis session freshly started by the engine: status
`"working"`, no result yet. -/
def pendingAnalysisRow : DbSession :=
  ⟨"s1", "i1", .analysis, "working", none, .arr [], none, 0, 0⟩

/-- An analysis session whose last reconciled remote status was the
running sub-state `resumed` (written verbatim by `getSessionStatus`). -/
def resumedRow : DbSession :=
  ⟨"sA", "i1", .analysis, "resumed", none, .arr [], none, 0, 0⟩

/-- A resolution-kind session row. -/
def resolutionRow : DbSession :=
  ⟨"s9", "i1", .resolution, "working", none, .arr [], none, 0, 0⟩

/-- A schema-valid `analysisResult` input. -/
def validAnalysisInput : AnalysisResultInput := ⟨"bug", "low", 85, "s", "sc", "r"⟩

/-- A remote response: terminal status carrying an empty-string
structured output. -/
def emptyOutputRemote : DevinSessionResponse :=
  ⟨"s1", "Devin is finished", some .finished, some (.str ""), none, none⟩

/-- A structured output that validates both as an AnalysisResult and as
a ResolutionResult (all six analysis fields plus a `summary`). -/
def bothShapesValue : JsValue :=
  .obj [("type", .str "bug"), ("complexity", .str "low"),
        ("confidence_score", .num 50), ("strategy", .str "s"),
        ("scope_analysis", .str "sc"), ("reasoning", .str "r"),
        ("summary", .str "done")]

/-- A remote response delivering `bothShapesValue` on a finished
session. -/
def bothShapesRemote : DevinSessionResponse :=
  ⟨"s9", "Devin is finished", some .finished, some bothShapesValue, none, none⟩

/-- A remote response still in the base running state. -/
def workingRemote : DevinSessionResponse :=
  ⟨"s1", "Devin is working", some .working, none, none, none⟩

/-- A remote response: terminal status carrying the non-JSON string
payload of property P6. -/
def notJsonRemote : DevinSessionResponse :=
  ⟨"s1", "Devin is finished", some .finished, some (.str "not json"), none, none⟩

/-- A structurally valid analysis payload with confidence score 85. -/
def validAnalysisValue : JsValue :=
  .obj [("type", .str "bug"), ("complexity", .str "low"),
        ("confidence_score", .num 85), ("strategy", .str "s"),
        ("scope_analysis", .str "sc"), ("reasoning", .str "r")]

/-- A finished remote response carrying `validAnalysisValue`. -/
def finishedAnalysisRemote : DevinSessionResponse :=
  ⟨"s1", "Devin is finished", some .finished, some validAnalysisValue, none, none⟩

/-- The rational 101/2 = 50.5, built with explicit numerator and
denominator. -/
def halfRat : ℚ := ⟨101, 2, by decide, by decide⟩

/-- An analysis payload whose confidence score is the non-integer 50.5
(every other field is well-formed). -/
def fractionalAnalysisValue : JsValue :=
  .obj [("type", .str "bug"), ("complexity", .str "low"),
        ("confidence_score", .num halfRat), ("strategy", .str "s"),
        ("scope_analysis", .str "sc"), ("reasoning", .str "r")]

/-- Claim-side transcription of the spec's AnalysisResult shape (§3),
with the integer reading of `confidence_score ∈ [0,100]` the claim
asserts: an object with `type` in the six categories, `complexity` in
the three levels, an integral confidence score between 0 and 100, and
three mandatory string fields. -/
def specAnalysisResultShapeInt (v : JsValue) : Prop :=
  (∃ fields, v = .obj fields) ∧
  (∃ s, v.get "type" = some (.str s) ∧ s ∈ analysisTypes) ∧
  (∃ s, v.get "complexity" = some (.str s) ∧ s ∈ complexityLevels) ∧
  (∃ q : ℚ, v.get "confidence_score" = some (.num q) ∧
    (∃ n : ℤ, q = (n : ℚ)) ∧ 0 ≤ q ∧ q ≤ 100) ∧
  (∃ s, v.get "strategy" = some (.str s)) ∧
  (∃ s, v.get "scope_analysis" = some (.str s)) ∧
  (∃ s, v.get "reasoning" = some (.str s))

/-- The same shape with `confidence_score` merely a number in [0,100]
(the integrality requirement dropped — the amendment the code forces). -/
def specAnalysisResultShape (v : JsValue) : Prop :=
  (∃ fields, v = .obj fields) ∧
  (∃ s, v.get "type" = some (.str s) ∧ s ∈ analysisTypes) ∧
  (∃ s, v.get "complexity" = some (.str s) ∧ s ∈ complexityLevels) ∧
  (∃ q : ℚ, v.get "confidence_score" = some (.num q) ∧ 0 ≤ q ∧ q ≤ 100) ∧
  (∃ s, v.get "strategy" = some (.str s)) ∧
  (∃ s, v.get "scope_analysis" = some (.str s)) ∧
  (∃ s, v.get "reasoning" = some (.str s))

/-! Helper lemmas about the store primitives. -/

/-- Updating a row through `updateSession` with a key-preserving field
change commutes with looking the row up by its key. -/
theorem findSession_updateSession (db : List DbSession) (sid : String)
    (f : DbSession → DbSession) (hf : ∀ s, (f s).sessionId = s.sessionId) :
    findSession (updateSession db sid f) sid = (findSession db sid).map f := by
  induction db with
  | nil => rfl
  | cons head tail ih =>
    show findSession
        ((if head.sessionId == sid then f head else head) :: updateSession tail sid f) sid
        = (findSession (head :: tail) sid).map f
    cases h : head.sessionId == sid with
    | true =>
      show findSession (f head :: updateSession tail sid f) sid
          = (findSession (head :: tail) sid).map f
      unfold findSession
      simp only [List.find?]
      rw [show ((f head).sessionId == sid) = true by rw [hf head]; exact h, h]
      rfl
    | false =>
      show findSession (head :: updateSession tail sid f) sid
          = (findSession (head :: tail) sid).map f
      unfold findSession
      simp only [List.find?]
      rw [h]
      exact ih

/-- Two successive key-preserving updates of the same row collapse to
their composition. -/
theorem updateSession_updateSession (db : List DbSession) (sid : String)
    (f g : DbSession → DbSession) (hf : ∀ s, (f s).sessionId = s.sessionId) :
    updateSession (updateSession db sid f) sid g =
      updateSession db sid (fun s => g (f s)) := by
  unfold updateSession
  rw [List.map_map]
  apply List.map_congr_left
  intro s _
  by_cases h : s.sessionId == sid <;> simp [Function.comp, h, hf]

/-- C2: the status normalization is total and deterministic — each of
the nine native values maps to exactly one canonical state
(`working`, `resumed` and the four suspend/resume handshake variants to
RUNNING; `blocked` to BLOCKED; `finished` to FINISHED; `expired` to
EXPIRED), and the canonical reading agrees exactly with the code's
`isDevinSessionRunning` / `isDevinSessionComplete` choke-point
predicates. -/
theorem getStatusCanonical_total_nine_values :
    getStatusCanonical .working = .RUNNING ∧
    getStatusCanonical .resumed = .RUNNING ∧
    getStatusCanonical .suspend_requested = .RUNNING ∧
    getStatusCanonical .suspend_requested_frontend = .RUNNING ∧
    getStatusCanonical .resume_requested = .RUNNING ∧
    getStatusCanonical .resume_requested_frontend = .RUNNING ∧
    getStatusCanonical .blocked = .BLOCKED ∧
    getStatusCanonical .finished = .FINISHED ∧
    getStatusCanonical .expired = .EXPIRED ∧
    (∀ s : DevinStatusEnum,
      (getStatusCanonical s = .RUNNING ↔ isDevinSessionRunning (some s) = true) ∧
      (getStatusCanonical s ≠ .RUNNING ↔ isDevinSessionComplete (some s) = true)) := by
  refine ⟨rfl, rfl, rfl, rfl, rfl, rfl, rfl, rfl, rfl, ?_⟩
  intro s
  cases s <;> exact ⟨by decide, by decide⟩

/-- C8: when the remote create call fails, `analyzeIssue` surfaces the
session-creation failure and the session table is returned untouched —
no row is inserted for the attempt (the create call having been
reached, i.e. no duplicate suppressed the attempt). -/
theorem analyzeIssue_create_failure_leaves_store
    (db : List DbSession) (issueId : String) (e : RemoteError) (now : Nat)
    (h : findFirstRunning db issueId .analysis = none) :
    analyzeIssue db issueId (.error e) now =
      ⟨db, .error .failedToStartAnalysis, true⟩ := by
  simp [analyzeIssue, h]

/-- Witness for C8 at an empty store and a network failure. -/
theorem analyzeIssue_create_failure_leaves_store_witness :
    analyzeIssue [] "i1" (.error .network) 0 =
      ⟨[], .error .failedToStartAnalysis, true⟩ :=
  analyzeIssue_create_failure_leaves_store [] "i1" .network 0 rfl

/-- C10: the `getAllSessions` status filter vocabulary
(`running`/`completed`/`failed`) is disjoint from every status the
engine's write paths persist (`"working"` from the start operations and
the native nine-value spellings from `getSessionStatus`), so a
status-filtered query excludes every such row. -/
theorem getAllSessions_filter_excludes_engine_rows
    (db : List DbSession) (issueId : Option String) (ty : Option SessionType)
    (f : String) (limit : Nat) (s : DbSession)
    (hf : f ∈ filterStatuses) (hs : ∃ e : DevinStatusEnum, s.status = e.toStr) :
    s ∉ getAllSessions db issueId ty (some f) limit := by
  intro hmem
  obtain ⟨e, he⟩ := hs
  have h1 := List.mem_of_mem_take hmem
  have h2 := List.mem_mergeSort.1 h1
  have h3 := List.of_mem_filter h2
  have hsf : s.status = f := by
    simp only [Bool.and_eq_true, beq_iff_eq] at h3
    tauto
  rw [he] at hsf
  fin_cases hf <;> cases e <;> simp_all [DevinStatusEnum.toStr]

/-- Witness for C10: a freshly started `"working"` row is excluded by a
`"running"`-filtered query. -/
theorem getAllSessions_filter_excludes_engine_rows_witness :
    pendingAnalysisRow ∉
      getAllSessions [pendingAnalysisRow] none none (some "running") 20 :=
  getAllSessions_filter_excludes_engine_rows [pendingAnalysisRow] none none
    "running" 20 pendingAnalysisRow (by decide) ⟨.working, rfl⟩

/-- A row whose status column is the literal `"working"` counts as
running. -/
theorem rowRunning_of_working (s : DbSession) (h : s.status = "working") :
    rowRunning s = true := by
  unfold rowRunning
  rw [h]
  decide

/-- If no analysis row for the issue is in a running sub-state, the
duplicate-suppression query (which looks for `"working"` only) finds
nothing. -/
theorem findFirstRunning_none_of_no_running (db : List DbSession)
    (issueId : String) (h : runningAnalysisCount db issueId = 0) :
    findFirstRunning db issueId .analysis = none := by
  rw [findFirstRunning, List.find?_eq_none]
  intro a ha hpa
  have h0 := List.countP_eq_zero.1 h a ha
  apply h0
  simp only [Bool.and_eq_true, beq_iff_eq] at hpa ⊢
  exact ⟨⟨hpa.1.1, hpa.1.2⟩, rowRunning_of_working a hpa.2⟩

/-- C1 counterexample: a stored analysis session in the running
sub-state `resumed` does not suppress `startAnalysis` — the call
reports `alreadyRunning = false`, performs the remote create, inserts a
second row, and leaves two running analysis rows for the issue,
violating the claimed invariant preservation. -/
theorem analyzeIssue_running_substate_not_suppressed :
    rowRunning resumedRow = true ∧
    resumedRow.type = .analysis ∧
    (analyzeIssue [resumedRow] "i1" (.ok "sB") 7).response = .ok ⟨"sB", false⟩ ∧
    (analyzeIssue [resumedRow] "i1" (.ok "sB") 7).remoteCreateCalled = true ∧
    (analyzeIssue [resumedRow] "i1" (.ok "sB") 7).db =
      [resumedRow, ⟨"sB", "i1", .analysis, "working", none, .arr [], none, 7, 7⟩] ∧
    runningAnalysisCount (analyzeIssue [resumedRow] "i1" (.ok "sB") 7).db "i1" = 2 :=
  ⟨rfl, rfl, rfl, rfl, rfl, rfl⟩

/-- C1 amended: the duplicate check matches status `"working"` only.
When it finds such a row, `analyzeIssue` returns that session's id with
the already-running flag, inserts nothing, and makes no remote call;
and two immediately successive `startAnalysis` calls against a store
with no running analysis row for the issue yield exactly one running
analysis row, with the second call returning the first id and the
already-running flag. -/
theorem analyzeIssue_duplicate_suppression :
    (∀ (db : List DbSession) (issueId : String)
        (rc : Except RemoteError String) (now : Nat) (s : DbSession),
      findFirstRunning db issueId .analysis = some s →
      analyzeIssue db issueId rc now = ⟨db, .ok ⟨s.sessionId, true⟩, false⟩) ∧
    (∀ (db : List DbSession) (issueId s1 : String) (now1 now2 : Nat)
        (rc2 : Except RemoteError String),
      runningAnalysisCount db issueId = 0 →
      (∀ t ∈ db, t.sessionId ≠ s1) →
      (analyzeIssue db issueId (.ok s1) now1).response = .ok ⟨s1, false⟩ ∧
      runningAnalysisCount (analyzeIssue db issueId (.ok s1) now1).db issueId = 1 ∧
      analyzeIssue (analyzeIssue db issueId (.ok s1) now1).db issueId rc2 now2 =
        ⟨(analyzeIssue db issueId (.ok s1) now1).db, .ok ⟨s1, true⟩, false⟩) := by
  constructor
  · intro db issueId rc now s h
    simp [analyzeIssue, h]
  · intro db issueId s1 now1 now2 rc2 hcount hfresh
    have hnone := findFirstRunning_none_of_no_running db issueId hcount
    have hany : (db.any (fun t => t.sessionId == s1)) = false := by
      cases hA : db.any (fun t => t.sessionId == s1) with
      | false => rfl
      | true =>
        obtain ⟨t, ht, hbeq⟩ := List.any_eq_true.1 hA
        exact absurd (by simpa using hbeq) (hfresh t ht)
    have ho1 : analyzeIssue db issueId (.ok s1) now1 =
        ⟨db ++ [⟨s1, issueId, .analysis, "working", none, .arr [], none, now1, now1⟩],
         .ok ⟨s1, false⟩, true⟩ := by
      simp [analyzeIssue, hnone, upsertSession, hany]
    rw [ho1]
    refine ⟨rfl, ?_, ?_⟩
    · unfold runningAnalysisCount at hcount ⊢
      rw [List.countP_append, hcount]
      simp [List.countP_cons, rowRunning_of_working]
    · have hfind : findFirstRunning
          (db ++ [⟨s1, issueId, .analysis, "working", none, .arr [], none, now1, now1⟩])
          issueId .analysis =
          some ⟨s1, issueId, .analysis, "working", none, .arr [], none, now1, now1⟩ := by
        unfold findFirstRunning at hnone ⊢
        rw [List.find?_append, hnone]
        simp
      simp [analyzeIssue, hfind]

/-- Witness for C1's amended statement: suppression of a `"working"`
row, and the two-call scenario on an empty store. -/
theorem analyzeIssue_duplicate_suppression_witness :
    analyzeIssue [pendingAnalysisRow] "i1" (.ok "sX") 3 =
      ⟨[pendingAnalysisRow], .ok ⟨"s1", true⟩, false⟩ ∧
    ((analyzeIssue [] "i1" (.ok "s1") 1).response = .ok ⟨"s1", false⟩ ∧
     runningAnalysisCount (analyzeIssue [] "i1" (.ok "s1") 1).db "i1" = 1 ∧
     analyzeIssue (analyzeIssue [] "i1" (.ok "s1") 1).db "i1" (.ok "s2") 2 =
       ⟨(analyzeIssue [] "i1" (.ok "s1") 1).db, .ok ⟨"s1", true⟩, false⟩) := by
  constructor
  · exact analyzeIssue_duplicate_suppression.1 [pendingAnalysisRow] "i1"
      (.ok "sX") 3 pendingAnalysisRow rfl
  · exact analyzeIssue_duplicate_suppression.2 [] "i1" "s1" 1 2 (.ok "s2") rfl
      (by intro t ht; cases ht)

/-- C3 counterexample: a resolution session is created from an analysis
session that is still `"working"` with no stored result — the handler
checks neither status FINISHED nor the stored result, only the
caller-supplied (schema-valid) `analysisResult`. -/
theorem resolveIssue_no_finished_check :
    pendingAnalysisRow.status = "working" ∧
    pendingAnalysisRow.result = none ∧
    (resolveIssue [pendingAnalysisRow] "s1" validAnalysisInput (.ok "r1") 5).response =
      .ok ⟨"r1", false⟩ ∧
    (resolveIssue [pendingAnalysisRow] "s1" validAnalysisInput (.ok "r1") 5).db =
      [pendingAnalysisRow,
       ⟨"r1", "i1", .resolution, "working", none, .arr [], none, 5, 5⟩] :=
  ⟨rfl, rfl, rfl, rfl⟩

/-- C3 amended: `startResolution` fails and creates no resolution row
when the supplied analysisResult fails the input schema or the
referenced session does not exist; those are the only precondition
checks — whenever the remote create is reached, the input was
schema-valid and the session existed, with no requirement on the stored
session's status or stored result. -/
theorem resolveIssue_preconditions :
    (∀ (db : List DbSession) (sid : String) (a : AnalysisResultInput)
        (rc : Except RemoteError String) (now : Nat),
      zodAnalysisInputValid a = false →
      resolveIssue db sid a rc now = ⟨db, .error .invalidInput, false⟩) ∧
    (∀ (db : List DbSession) (sid : String) (a : AnalysisResultInput)
        (rc : Except RemoteError String) (now : Nat),
      zodAnalysisInputValid a = true →
      findSession db sid = none →
      resolveIssue db sid a rc now = ⟨db, .error .failedToStartResolution, false⟩) ∧
    (∀ (db : List DbSession) (sid : String) (a : AnalysisResultInput)
        (rc : Except RemoteError String) (now : Nat),
      (resolveIssue db sid a rc now).remoteCreateCalled = true →
      zodAnalysisInputValid a = true ∧ (findSession db sid).isSome = true) := by
  refine ⟨?_, ?_, ?_⟩
  · intro db sid a rc now h
    simp [resolveIssue, h]
  · intro db sid a rc now hz hn
    simp [resolveIssue, hz, hn]
  · intro db sid a rc now h
    cases hz : zodAnalysisInputValid a with
    | false => simp [resolveIssue, hz] at h
    | true =>
      refine ⟨rfl, ?_⟩
      cases hf : findSession db sid with
      | some s => simp [hf]
      | none => simp [resolveIssue, hz, hf] at h

/-- Witness for C3's amended statement: schema rejection, missing
session, and the reachability of the create path. -/
theorem resolveIssue_preconditions_witness :
    resolveIssue [] "s1" ⟨"alien", "low", 85, "s", "sc", "r"⟩ (.ok "r1") 5 =
      ⟨[], .error .invalidInput, false⟩ ∧
    resolveIssue [] "s1" validAnalysisInput (.ok "r1") 5 =
      ⟨[], .error .failedToStartResolution, false⟩ ∧
    (zodAnalysisInputValid validAnalysisInput = true ∧
     (findSession [pendingAnalysisRow] "s1").isSome = true) := by
  refine ⟨?_, ?_, ?_⟩
  · exact resolveIssue_preconditions.1 [] "s1" ⟨"alien", "low", 85, "s", "sc", "r"⟩
      (.ok "r1") 5 (by decide)
  · exact resolveIssue_preconditions.2.1 [] "s1" validAnalysisInput (.ok "r1") 5
      (by decide) rfl
  · exact resolveIssue_preconditions.2.2 [pendingAnalysisRow] "s1"
      validAnalysisInput (.ok "r1") 5 rfl

/-- C4 counterexample: a finished remote response whose structured
output is the empty string.  The truthiness guard skips the processing
block, so the terminal status is still written and nothing is raised,
but the stored result is null — not the raw payload `""` the claim
requires to be stored. -/
theorem getSessionStatus_empty_output_not_stored :
    isValidAnalysisResult (.str "") = false ∧
    isValidResolutionResult (.str "") = false ∧
    emptyOutputRemote.structured_output = some (.str "") ∧
    (getSessionStatus [pendingAnalysisRow] "s1" emptyOutputRemote 9).1 =
      [⟨"s1", "i1", .analysis, "finished", none, .arr [], none, 0, 9⟩] ∧
    (getSessionStatus [pendingAnalysisRow] "s1" emptyOutputRemote 9).2 =
      .ok ⟨"s1", "Devin is finished", .finished, none, none, "i1"⟩ :=
  ⟨rfl, rfl, rfl, rfl, rfl⟩

/-- C4 amended: for a terminal remote status with a truthy (non-empty)
structured output failing both validators, `getStatus` does not raise,
writes the terminal native status to the row, and stores the raw
payload as the result. -/
theorem getSessionStatus_malformed_output_tolerated
    (db : List DbSession) (sid : String) (remote : DevinSessionResponse)
    (now : Nat) (row : DbSession) (v : JsValue) (se : DevinStatusEnum)
    (hrow : findSession db sid = some row)
    (hse : remote.status_enum = some se)
    (hterm : isDevinSessionComplete (some se) = true)
    (hout : remote.structured_output = some v)
    (htruthy : v.truthy = true)
    (hA : isValidAnalysisResult v = false)
    (hR : isValidResolutionResult v = false) :
    (getSessionStatus db sid remote now).2 =
      .ok ⟨remote.session_id, remote.status, se, some v, none, row.issueId⟩ ∧
    findSession (getSessionStatus db sid remote now).1 sid =
      some (reconcileRow remote now row) ∧
    (reconcileRow remote now row).status = se.toStr ∧
    (reconcileRow remote now row).result = some v := by
  have hrc : remoteResultConf remote = (some v, none) := by
    unfold remoteResultConf
    rw [hse, hout]
    simp [hterm, htruthy, processStructuredOutput, hA, hR]
  have hpres : ∀ s, (reconcileRow remote now s).sessionId = s.sessionId :=
    fun s => rfl
  refine ⟨?_, ?_, ?_, ?_⟩
  · simp [getSessionStatus, hrow, hse, hrc]
  · simp only [getSessionStatus, hrow]
    rw [findSession_updateSession _ _ _ hpres, hrow]
    rfl
  · simp [reconcileRow, hse]
  · simp [reconcileRow, hrc]

/-- Witness for C4's amended statement at the payload `"not json"`. -/
theorem getSessionStatus_malformed_output_tolerated_witness :
    (getSessionStatus [pendingAnalysisRow] "s1" notJsonRemote 9).2 =
      .ok ⟨"s1", "Devin is finished", .finished, some (.str "not json"),
           none, "i1"⟩ ∧
    findSession (getSessionStatus [pendingAnalysisRow] "s1" notJsonRemote 9).1 "s1" =
      some (reconcileRow notJsonRemote 9 pendingAnalysisRow) ∧
    (reconcileRow notJsonRemote 9 pendingAnalysisRow).status =
      DevinStatusEnum.finished.toStr ∧
    (reconcileRow notJsonRemote 9 pendingAnalysisRow).result =
      some (.str "not json") :=
  getSessionStatus_malformed_output_tolerated [pendingAnalysisRow] "s1"
    notJsonRemote 9 pendingAnalysisRow (.str "not json") .finished
    rfl rfl rfl rfl rfl rfl rfl

/-- C5 counterexample: a payload valid as both result shapes, reported
for a session whose kind is resolution.  The engine still attempts
AnalysisResult validation first — visible in the populated confidence
score (a resolution-first order would have left it null). -/
theorem getSessionStatus_kind_ignored :
    resolutionRow.type = .resolution ∧
    isValidResolutionResult bothShapesValue = true ∧
    isValidAnalysisResult bothShapesValue = true ∧
    (getSessionStatus [resolutionRow] "s9" bothShapesRemote 4).2 =
      .ok ⟨"s9", "Devin is finished", .finished, some bothShapesValue,
           some 50, "i1"⟩ :=
  ⟨rfl, rfl, rfl, rfl⟩

/-- C5 amended: the classification order is fixed — AnalysisResult is
attempted first, ResolutionResult only as a fallback — for every
payload; the classification block takes no kind input at all, so the
order cannot depend on the Session record's kind. -/
theorem processStructuredOutput_analysis_first (v : JsValue) :
    (isValidAnalysisResult v = true →
      processStructuredOutput v = (some v, analysisConfidence v)) ∧
    (isValidAnalysisResult v = false → isValidResolutionResult v = true →
      processStructuredOutput v = (some v, none)) := by
  constructor
  · intro h
    simp [processStructuredOutput, h]
  · intro h1 h2
    simp [processStructuredOutput, h1, h2]

/-- Witness for C5's amended statement at the doubly-valid payload. -/
theorem processStructuredOutput_analysis_first_witness :
    processStructuredOutput bothShapesValue =
      (some bothShapesValue, analysisConfidence bothShapesValue) :=
  (processStructuredOutput_analysis_first bothShapesValue).1 rfl

/-- Reconciling a row twice against the same remote response changes
nothing the second time beyond `updatedAt`. -/
theorem reconcileRow_reconcileRow (remote : DevinSessionResponse)
    (t1 t2 : Nat) (s : DbSession) :
    reconcileRow remote t2 (reconcileRow remote t1 s) =
      { reconcileRow remote t1 s with updatedAt := t2 } := by
  unfold reconcileRow
  cases hm : remote.messages with
  | none => rfl
  | some m => cases ht : m.truthy <;> simp [ht]

/-- C6: `getStatus` is idempotent on terminal sessions — polling the
same (finished) remote state again returns a byte-identical view
(result included) and rewrites the stored row to exactly its previous
value with only `updatedAt` refreshed. -/
theorem getSessionStatus_idempotent_on_terminal
    (db : List DbSession) (sid : String) (remote : DevinSessionResponse)
    (t1 t2 : Nat) (row : DbSession)
    (hrow : findSession db sid = some row)
    (_hfin : remote.status_enum = some .finished) :
    (getSessionStatus (getSessionStatus db sid remote t1).1 sid remote t2).2 =
      (getSessionStatus db sid remote t1).2 ∧
    (getSessionStatus (getSessionStatus db sid remote t1).1 sid remote t2).1 =
      updateSession (getSessionStatus db sid remote t1).1 sid
        (fun s => { s with updatedAt := t2 }) := by
  have hpres1 : ∀ s, (reconcileRow remote t1 s).sessionId = s.sessionId :=
    fun s => rfl
  have h1 : getSessionStatus db sid remote t1 =
      (updateSession db sid (reconcileRow remote t1),
       .ok ⟨remote.session_id, remote.status, remote.status_enum.getD .working,
            (remoteResultConf remote).1, (remoteResultConf remote).2,
            row.issueId⟩) := by
    simp [getSessionStatus, hrow]
  have hrow2 : findSession (updateSession db sid (reconcileRow remote t1)) sid =
      some (reconcileRow remote t1 row) := by
    rw [findSession_updateSession _ _ _ hpres1, hrow]
    rfl
  have h2 : getSessionStatus (updateSession db sid (reconcileRow remote t1))
      sid remote t2 =
      (updateSession (updateSession db sid (reconcileRow remote t1)) sid
        (reconcileRow remote t2),
       .ok ⟨remote.session_id, remote.status, remote.status_enum.getD .working,
            (remoteResultConf remote).1, (remoteResultConf remote).2,
            (reconcileRow remote t1 row).issueId⟩) := by
    simp [getSessionStatus, hrow2]
  constructor
  · simp only [h1, h2]
    rfl
  · simp only [h1, h2]
    rw [updateSession_updateSession _ _ _ _ hpres1,
        updateSession_updateSession _ _ _ _ hpres1]
    unfold updateSession
    apply List.map_congr_left
    intro s _
    by_cases hq : s.sessionId == sid <;> simp [hq, reconcileRow_reconcileRow]

/-- Witness for C6 on a finished remote response with a valid analysis
payload. -/
theorem getSessionStatus_idempotent_on_terminal_witness :
    (getSessionStatus
        (getSessionStatus [pendingAnalysisRow] "s1" finishedAnalysisRemote 1).1
        "s1" finishedAnalysisRemote 2).2 =
      (getSessionStatus [pendingAnalysisRow] "s1" finishedAnalysisRemote 1).2 ∧
    (getSessionStatus
        (getSessionStatus [pendingAnalysisRow] "s1" finishedAnalysisRemote 1).1
        "s1" finishedAnalysisRemote 2).1 =
      updateSession
        (getSessionStatus [pendingAnalysisRow] "s1" finishedAnalysisRemote 1).1
        "s1" (fun s => { s with updatedAt := 2 }) :=
  getSessionStatus_idempotent_on_terminal [pendingAnalysisRow] "s1"
    finishedAnalysisRemote 1 2 pendingAnalysisRow rfl rfl

/-- C7 counterexample: exhausting the bounded poll on an ever-working
session.  The client helper raises the timeout, but the router's catch
block then marks the stored row `"failed"` — the timeout path mutates
the Session's status and updatedAt, contradicting the claimed
frame condition. -/
theorem routerPollSession_timeout_mutates :
    pollSession (fun _ => workingRemote) 2 = .error .timedOut ∧
    (routerPollSession [pendingAnalysisRow] "s1" (fun _ => workingRemote) 2 11).1 =
      [⟨"s1", "i1", .analysis, "failed", none, .arr [], none, 0, 11⟩] ∧
    (routerPollSession [pendingAnalysisRow] "s1" (fun _ => workingRemote) 2 11).2 =
      .error .sessionPollingFailed :=
  ⟨rfl, rfl, rfl⟩

/-- C7 amended: attempt exhaustion raises a timeout distinct from the
EXPIRED canonical state; the engine-level timeout path then rewrites the
polled row, setting status to `"failed"` (a string outside the native
vocabulary, in particular not `"expired"`) and refreshing `updatedAt`,
leaving all other fields and rows unchanged. -/
theorem routerPollSession_timeout
    (db : List DbSession) (sid : String)
    (responses : Nat → DevinSessionResponse) (n now : Nat)
    (h : pollSession responses n = .error .timedOut) :
    routerPollSession db sid responses n now =
      (updateSession db sid (fun s => { s with status := "failed", updatedAt := now }),
       .error .sessionPollingFailed) ∧
    "failed" ≠ DevinStatusEnum.expired.toStr ∧
    statusOfString "failed" = none := by
  refine ⟨?_, by decide, rfl⟩
  simp [routerPollSession, h]

/-- Witness for C7's amended statement: a one-attempt poll of a
still-working session. -/
theorem routerPollSession_timeout_witness :
    routerPollSession [] "sZ" (fun _ => workingRemote) 1 3 =
      (updateSession [] "sZ" (fun s => { s with status := "failed", updatedAt := 3 }),
       .error .sessionPollingFailed) ∧
    "failed" ≠ DevinStatusEnum.expired.toStr ∧
    statusOfString "failed" = none :=
  routerPollSession_timeout [] "sZ" (fun _ => workingRemote) 1 3 rfl

/-- C9 counterexample: the validator accepts an analysis payload whose
confidence score is the non-integer 50.5, which the claimed shape
(integer confidence score) excludes — so the claimed equivalence fails
on this input. -/
theorem isValidAnalysisResult_accepts_fractional :
    isValidAnalysisResult fractionalAnalysisValue = true ∧
    ¬ specAnalysisResultShapeInt fractionalAnalysisValue := by
  refine ⟨rfl, ?_⟩
  rintro ⟨-, -, -, ⟨q, hq, ⟨n, hn⟩, -, -⟩, -, -, -⟩
  have hv0 : fractionalAnalysisValue.get "confidence_score" =
      some (JsValue.num halfRat) := rfl
  rw [hv0] at hq
  injection hq with hq1
  injection hq1 with hq2
  have hd : halfRat.den = 1 := by rw [hq2, hn]; exact Rat.den_intCast n
  exact absurd hd (by decide)

/-- C9 amended: the analysis validator accepts a value exactly when it
is an object with `type` in the six categories, `complexity` in the
three levels, `confidence_score` a number (not necessarily an integer)
in [0,100], and present string `strategy`, `scope_analysis` and
`reasoning` fields. -/
theorem isValidAnalysisResult_iff_shape (v : JsValue) :
    isValidAnalysisResult v = true ↔ specAnalysisResultShape v := by
  constructor
  · intro h
    cases v with
    | nul => exact absurd h (by decide)
    | bool b => cases b <;> exact absurd h (by decide)
    | num q => simp [isValidAnalysisResult, JsValue.truthy, JsValue.isObjectLike] at h
    | str s => simp [isValidAnalysisResult, JsValue.truthy, JsValue.isObjectLike] at h
    | arr xs => simp [isValidAnalysisResult, JsValue.truthy, JsValue.isObjectLike, JsValue.get] at h
    | obj fields =>
      simp [isValidAnalysisResult, JsValue.truthy, JsValue.isObjectLike] at h
      obtain ⟨⟨⟨⟨⟨h1, h2⟩, h3⟩, h4⟩, h5⟩, h6⟩ := h
      refine ⟨⟨fields, rfl⟩, ?_, ?_, ?_, ?_, ?_, ?_⟩
      · cases hg : (JsValue.obj fields).get "type" with
        | none => rw [hg] at h1; simp at h1
        | some w =>
          rw [hg] at h1
          cases w with
          | str s => exact ⟨s, rfl, by simpa using h1⟩
          | nul => simp at h1
          | bool b => simp at h1
          | num q => simp at h1
          | arr a => simp at h1
          | obj o => simp at h1
      · cases hg : (JsValue.obj fields).get "complexity" with
        | none => rw [hg] at h2; simp at h2
        | some w =>
          rw [hg] at h2
          cases w with
          | str s => exact ⟨s, rfl, by simpa using h2⟩
          | nul => simp at h2
          | bool b => simp at h2
          | num q => simp at h2
          | arr a => simp at h2
          | obj o => simp at h2
      · cases hg : (JsValue.obj fields).get "confidence_score" with
        | none => rw [hg] at h3; simp at h3
        | some w =>
          rw [hg] at h3
          cases w with
          | num q =>
            have h3b : (decide (0 ≤ q) && decide (q ≤ 100)) = true := h3
            simp only [Bool.and_eq_true, decide_eq_true_eq] at h3b
            exact ⟨q, rfl, h3b.1, h3b.2⟩
          | nul => simp at h3
          | bool b => simp at h3
          | str s => simp at h3
          | arr a => simp at h3
          | obj o => simp at h3
      · cases hg : (JsValue.obj fields).get "strategy" with
        | none => rw [hg] at h4; simp at h4
        | some w =>
          rw [hg] at h4
          cases w with
          | str s => exact ⟨s, rfl⟩
          | nul => simp at h4
          | bool b => simp at h4
          | num q => simp at h4
          | arr a => simp at h4
          | obj o => simp at h4
      · cases hg : (JsValue.obj fields).get "scope_analysis" with
        | none => rw [hg] at h5; simp at h5
        | some w =>
          rw [hg] at h5
          cases w with
          | str s => exact ⟨s, rfl⟩
          | nul => simp at h5
          | bool b => simp at h5
          | num q => simp at h5
          | arr a => simp at h5
          | obj o => simp at h5
      · cases hg : (JsValue.obj fields).get "reasoning" with
        | none => rw [hg] at h6; simp at h6
        | some w =>
          rw [hg] at h6
          cases w with
          | str s => exact ⟨s, rfl⟩
          | nul => simp at h6
          | bool b => simp at h6
          | num q => simp at h6
          | arr a => simp at h6
          | obj o => simp at h6
  · rintro ⟨⟨fields, hv⟩, ⟨s1, hg1, hm1⟩, ⟨s2, hg2, hm2⟩, ⟨q, hgq, h0, h100⟩,
      ⟨s4, hg4⟩, ⟨s5, hg5⟩, ⟨s6, hg6⟩⟩
    subst hv
    simp [isValidAnalysisResult, JsValue.truthy, JsValue.isObjectLike,
      hg1, hg2, hgq, hg4, hg5, hg6, hm1, hm2, h0, h100]
